import Mathlib

/-!
Shallow embedding of the `sqlrows` mock row-set engine (the Go files
`mock-adapter.go` and `mock-mappings.go`), together with theorems settling
the specification claims about it.

Conventions of the embedding:
* Go's dynamically typed `any` row values become the inductive `Val`;
  Go `nil` is `Val.none`; a Go pointer destination is `Val.ptr a`, an index
  into an explicit heap (`List Val`).
* The process-wide failure channel (`onPanic`, which by default terminates
  the run) is modelled as `Except PanicMsg`: the first reported failure
  aborts construction, exactly as the default handler does.
* `reflect` runtime panics during `Scan`'s write-through (which are Go
  runtime panics, not reported errors and not the failure channel) are
  modelled as the `ScanOutcome.crash` outcome.
* Go `DatabaseType` is an `Int` (it is an integer type in the source);
  map lookups that yield Go zero values on a miss are modelled with the
  same defaulting (`""` for the name tables, zero defaults for the
  defaults tables via `Option.getD`).
-/

namespace SqlRows

/-- A dynamically typed stored value (Go `any`). `none` is Go `nil`;
`ptr a` models a pointer destination referencing heap cell `a`. -/
inductive Val where
  | none
  | bool (b : Bool)
  | int (n : Int)
  | str (s : String)
  | time (t : Int)
  | uuid (u : Nat)
  | ptr (a : Nat)
deriving DecidableEq, Repr

/-- A Go `reflect.Type` as used by the base-type table: the closed set of
scan representations, plus pointer types built by `reflect.PointerTo`.
Go aliases are identified just as `reflect.TypeOf` identifies them:
`byte` is `uint8` and `rune` is `int32`. -/
inductive GoType where
  | bool
  | int
  | int8
  | int16
  | int32
  | int64
  | uint
  | uint8
  | uint16
  | uint32
  | uint64
  | float32
  | float64
  | complex64
  | complex128
  | string
  | uintptr
  | timeTime
  | uuidUUID
  | ptr (t : GoType)
deriving DecidableEq, Repr

/-- `baseTypes` from `mock-mappings.go`: map of base type names to their
`reflect.Type`. A missing key is Go's `nil`, here `Option.none`. -/
def baseTypes (t : String) : Option GoType :=
  if t = "bool" then some .bool
  else if t = "int" then some .int
  else if t = "int8" then some .int8
  else if t = "int16" then some .int16
  else if t = "int32" then some .int32
  else if t = "int64" then some .int64
  else if t = "uint" then some .uint
  else if t = "uint8" then some .uint8
  else if t = "uint16" then some .uint16
  else if t = "uint32" then some .uint32
  else if t = "uint64" then some .uint64
  else if t = "float32" then some .float32
  else if t = "float64" then some .float64
  else if t = "complex64" then some .complex64
  else if t = "complex128" then some .complex128
  else if t = "string" then some .string
  else if t = "byte" then some .uint8
  else if t = "rune" then some .int32
  else if t = "uintptr" then some .uintptr
  else if t = "time.Time" then some .timeTime
  else if t = "uuid.UUID" then some .uuidUUID
  else none

/-- The 21 keys of the `baseTypes` table, for enumeration in theorems. -/
def baseTypeNames : List String :=
  ["bool", "int", "int8", "int16", "int32", "int64",
   "uint", "uint8", "uint16", "uint32", "uint64",
   "float32", "float64", "complex64", "complex128",
   "string", "byte", "rune", "uintptr", "time.Time", "uuid.UUID"]

/-- `dbTypesSnowflake` from `mock-mappings.go`. A Go map lookup miss yields
the zero value `""`. -/
def dbTypesSnowflake (t : String) : String :=
  if t = "bool" then "BOOLEAN"
  else if t = "int" then "INTEGER"
  else if t = "int8" then "INTEGER"
  else if t = "int16" then "INTEGER"
  else if t = "int32" then "INTEGER"
  else if t = "int64" then "BIGINT"
  else if t = "uint" then "INTEGER"
  else if t = "uint8" then "INTEGER"
  else if t = "uint16" then "INTEGER"
  else if t = "uint32" then "BIGINT"
  else if t = "uint64" then "BIGINT"
  else if t = "float32" then "FLOAT"
  else if t = "float64" then "DOUBLE"
  else if t = "complex64" then "VARCHAR"
  else if t = "complex128" then "VARCHAR"
  else if t = "string" then "VARCHAR"
  else if t = "byte" then "INTEGER"
  else if t = "rune" then "INTEGER"
  else if t = "uintptr" then "BIGINT"
  else if t = "time.Time" then "TIMESTAMP"
  else if t = "uuid.UUID" then "VARCHAR"
  else ""

/-- `dbTypesPostgres` from `mock-mappings.go`. -/
def dbTypesPostgres (t : String) : String :=
  if t = "bool" then "BOOLEAN"
  else if t = "int" then "INTEGER"
  else if t = "int8" then "SMALLINT"
  else if t = "int16" then "SMALLINT"
  else if t = "int32" then "INTEGER"
  else if t = "int64" then "BIGINT"
  else if t = "uint" then "INTEGER"
  else if t = "uint8" then "SMALLINT"
  else if t = "uint16" then "INTEGER"
  else if t = "uint32" then "BIGINT"
  else if t = "uint64" then "NUMERIC(20)"
  else if t = "float32" then "REAL"
  else if t = "float64" then "DOUBLE PRECISION"
  else if t = "complex64" then "TEXT"
  else if t = "complex128" then "TEXT"
  else if t = "string" then "TEXT"
  else if t = "byte" then "SMALLINT"
  else if t = "rune" then "INTEGER"
  else if t = "uintptr" then "BIGINT"
  else if t = "time.Time" then "TIMESTAMP WITH TIME ZONE"
  else if t = "uuid.UUID" then "UUID"
  else ""

/-- `dbTypesMsSql` from `mock-mappings.go`. -/
def dbTypesMsSql (t : String) : String :=
  if t = "bool" then "BIT"
  else if t = "int" then "INT"
  else if t = "int8" then "TINYINT"
  else if t = "int16" then "SMALLINT"
  else if t = "int32" then "INT"
  else if t = "int64" then "BIGINT"
  else if t = "uint" then "INT"
  else if t = "uint8" then "TINYINT"
  else if t = "uint16" then "INT"
  else if t = "uint32" then "BIGINT"
  else if t = "uint64" then "DECIMAL(20)"
  else if t = "float32" then "REAL"
  else if t = "float64" then "FLOAT"
  else if t = "complex64" then "NVARCHAR(MAX)"
  else if t = "complex128" then "NVARCHAR(MAX)"
  else if t = "string" then "NVARCHAR(MAX)"
  else if t = "byte" then "TINYINT"
  else if t = "rune" then "INT"
  else if t = "uintptr" then "BIGINT"
  else if t = "time.Time" then "DATETIME2"
  else if t = "uuid.UUID" then "UNIQUEIDENTIFIER"
  else ""

/-- `databaseDefaults` from `mock-mappings.go`: default length, precision,
and scale for SQL data types. -/
structure databaseDefaults where
  length : Int
  precision : Int
  scale : Int
deriving DecidableEq, Repr

/-- The Snowflake inner table of `dbTypeDefaults`. A miss is `Option.none`
(the caller applies Go's zero-value defaulting explicitly). -/
def dbTypeDefaultsSnowflake (t : String) : Option databaseDefaults :=
  if t = "VARCHAR" then some ⟨16777216, 0, 0⟩
  else if t = "NUMBER" then some ⟨0, 38, 0⟩
  else if t = "DECIMAL" then some ⟨0, 38, 0⟩
  else if t = "INTEGER" then some ⟨0, 0, 0⟩
  else if t = "BIGINT" then some ⟨0, 0, 0⟩
  else if t = "FLOAT" then some ⟨0, 0, 0⟩
  else if t = "DOUBLE" then some ⟨0, 0, 0⟩
  else if t = "BOOLEAN" then some ⟨0, 0, 0⟩
  else if t = "TIMESTAMP" then some ⟨0, 0, 0⟩
  else none

/-- The Postgres inner table of `dbTypeDefaults`. Note the source key
`"DOUBLE precision"` is written exactly as in the Go file (lowercase
`precision`). -/
def dbTypeDefaultsPostgres (t : String) : Option databaseDefaults :=
  if t = "TEXT" then some ⟨1073741824, 0, 0⟩
  else if t = "VARCHAR" then some ⟨1073741824, 0, 0⟩
  else if t = "NUMERIC" then some ⟨0, 0, 0⟩
  else if t = "DECIMAL" then some ⟨0, 0, 0⟩
  else if t = "INTEGER" then some ⟨0, 0, 0⟩
  else if t = "BIGINT" then some ⟨0, 0, 0⟩
  else if t = "SMALLINT" then some ⟨0, 0, 0⟩
  else if t = "REAL" then some ⟨0, 6, 0⟩
  else if t = "DOUBLE precision" then some ⟨0, 15, 0⟩
  else if t = "BOOLEAN" then some ⟨0, 0, 0⟩
  else if t = "TIMESTAMP WITH TIME ZONE" then some ⟨0, 0, 0⟩
  else if t = "UUID" then some ⟨0, 0, 0⟩
  else none

/-- The MS SQL inner table of `dbTypeDefaults`. -/
def dbTypeDefaultsMsSql (t : String) : Option databaseDefaults :=
  if t = "NVARCHAR(MAX)" then some ⟨2147483647, 0, 0⟩
  else if t = "VARCHAR(MAX)" then some ⟨2147483647, 0, 0⟩
  else if t = "DECIMAL" then some ⟨0, 18, 0⟩
  else if t = "NUMERIC" then some ⟨0, 18, 0⟩
  else if t = "INT" then some ⟨0, 0, 0⟩
  else if t = "BIGINT" then some ⟨0, 0, 0⟩
  else if t = "SMALLINT" then some ⟨0, 0, 0⟩
  else if t = "TINYINT" then some ⟨0, 0, 0⟩
  else if t = "REAL" then some ⟨0, 7, 0⟩
  else if t = "FLOAT" then some ⟨0, 15, 0⟩
  else if t = "BIT" then some ⟨0, 0, 0⟩
  else if t = "DATETIME2" then some ⟨0, 0, 0⟩
  else if t = "UNIQUEIDENTIFIER" then some ⟨0, 0, 0⟩
  else none

/-- `DbTypeSnowflake` constant (Go `iota` value 0). -/
def DbTypeSnowflake : Int := 0

/-- `DbTypePostgresSQL` constant (Go `iota` value 1). -/
def DbTypePostgresSQL : Int := 1

/-- `DbTypeMsSQL` constant (Go `iota` value 2). -/
def DbTypeMsSQL : Int := 2

/-- `dbTypeDefaults` from `mock-mappings.go`: maps database type to its
defaults table; a missing database type is Go's `nil` map. -/
def dbTypeDefaults (dbType : Int) : Option (String → Option databaseDefaults) :=
  if dbType = DbTypeSnowflake then some dbTypeDefaultsSnowflake
  else if dbType = DbTypePostgresSQL then some dbTypeDefaultsPostgres
  else if dbType = DbTypeMsSQL then some dbTypeDefaultsMsSql
  else none

/-- The messages of the process-wide failure channel (`onPanic`), one
constructor per distinct `fmt.Sprintf` format in the source. -/
inductive PanicMsg where
  | emptyColumnSpec (colSpec : String)
  | invalidPair (part : String)
  | invalidLength (value : String)
  | invalidPrecision (value : String)
  | invalidScale (value : String)
  | unknownKeyword (key : String)
  | missingName (colSpec : String)
  | missingType (colSpec : String)
  | unsupportedType (typeStr : String)
  | invalidDatabaseType
  | databaseTypeNotValid
  | tableOutOfSync (baseType : String)
  | duplicateColumn (colName : String)
  | columnDoesNotExist (name : String)
deriving DecidableEq, Repr

/-- `mockColumnType` from `mock-adapter.go`. -/
structure mockColumnType where
  colName : String
  colType : GoType
  nullable : Bool
  length : Int
  precision : Int
  scale : Int
  databaseType : String
deriving DecidableEq, Repr

/-- `mockColumnType.DatabaseTypeName`. -/
def mockColumnType.DatabaseTypeName (m : mockColumnType) : String :=
  m.databaseType

/-- `mockColumnType.DecimalSize`: returns `(precision, scale, ok)` with
`ok = (precision != 0 || scale != 0)`. -/
def mockColumnType.DecimalSize (m : mockColumnType) : Int × Int × Bool :=
  (m.precision, m.scale, m.precision != 0 || m.scale != 0)

/-- `mockColumnType.Length`: returns `(length, ok)` with
`ok = (length != 0)`. -/
def mockColumnType.Length (m : mockColumnType) : Int × Bool :=
  (m.length, m.length != 0)

/-- `mockColumnType.Name`. -/
def mockColumnType.Name (m : mockColumnType) : String :=
  m.colName

/-- `mockColumnType.Nullable`: always `ok = true`. -/
def mockColumnType.Nullable (m : mockColumnType) : Bool × Bool :=
  (m.nullable, true)

/-- `mockColumnType.ScanType`. -/
def mockColumnType.ScanType (m : mockColumnType) : GoType :=
  m.colType

/-- `mockRowSet` from `mock-adapter.go`. The Go maps `order` (a set of
names) and `orderLwr` (lowercased name to column index) are modelled as
lists; `err` is the stored deferred error. -/
structure mockRowSet where
  order : List String := []
  orderLwr : List (String × Nat) := []
  columns : List String := []
  columnTypes : List mockColumnType := []
  values : List (List Val) := []
  pos : Nat := 0
  errMsg : Option String := none
  hasNextSet : Bool := false
deriving DecidableEq, Repr

/-! ### String helpers mirroring the Go standard library calls -/

/-- Go `strings.Split(s, ";")` for the single-character separator, on
character lists: always returns at least one (possibly empty) piece. -/
def splitListOn (sep : Char) : List Char → List (List Char)
  | [] => [[]]
  | c :: cs =>
    let r := splitListOn sep cs
    if c = sep then [] :: r
    else
      match r with
      | [] => [[c]]
      | x :: xs => (c :: x) :: xs

/-- Go `strings.Split(s, ";")` lifted to `String`. -/
def goSplitSemi (s : String) : List String :=
  (splitListOn (Char.ofNat 59) s.data).map fun cs => ⟨cs⟩

/-- Go `strings.TrimSpace`: drop leading and trailing whitespace. -/
def goTrim (s : String) : String :=
  ⟨((s.data.dropWhile Char.isWhitespace).reverse.dropWhile Char.isWhitespace).reverse⟩

/-- Split a character list at the first `=`; `Option.none` when there is
no `=` at all. -/
def breakAtEq : List Char → Option (List Char × List Char)
  | [] => none
  | c :: cs =>
    if c = Char.ofNat 61 then some ([], cs)
    else
      match breakAtEq cs with
      | none => none
      | some (l, r) => some (c :: l, r)

/-- Go `strings.SplitN(part, "=", 2)`: one piece when there is no `=`,
otherwise the prefix before the first `=` and everything after it. -/
def splitN2Eq (s : String) : List String :=
  match breakAtEq s.data with
  | none => [s]
  | some (l, r) => [⟨l⟩, ⟨r⟩]

/-- Go `strings.HasPrefix(s, "*")`. -/
def goStartsWithStar (s : String) : Bool :=
  match s.data with
  | c :: _ => c = Char.ofNat 42
  | [] => false

/-- Go `strings.ToLower` (ASCII suffices for the engine's inputs). -/
def goToLower (s : String) : String :=
  ⟨s.data.map Char.toLower⟩

/-- Digit list to `Nat` (the list is all decimal digits). -/
def digitsToNat (cs : List Char) : Nat :=
  cs.foldl (fun a c => a * 10 + (c.toNat - 48)) 0

/-- Go `strconv.ParseInt(value, 10, 64)`: optional sign, then decimal
digits only, within the signed 64-bit range; `Option.none` is the error
case. -/
def parseIntDec (s : String) : Option Int :=
  let signSplit : Bool × List Char :=
    match s.data with
    | c :: rest =>
      if c = Char.ofNat 45 then (true, rest)
      else if c = Char.ofNat 43 then (false, rest)
      else (false, s.data)
    | [] => (false, [])
  let neg := signSplit.1
  let ds := signSplit.2
  if ds.isEmpty then none
  else if ds.all Char.isDigit then
    let v : Int := if neg then -(digitsToNat ds : Int) else (digitsToNat ds : Int)
    if v < -9223372036854775808 ∨ 9223372036854775807 < v then none else some v
  else none

/-- Decidable equality for `Except`, by cases (so that closed parser
results evaluate under `decide`). -/
def exceptDecEq {α β : Type} [DecidableEq α] [DecidableEq β] :
    (a b : Except α β) → Decidable (a = b)
  | .error a, .error b =>
    if h : a = b then .isTrue (by rw [h])
    else .isFalse fun he => h (Except.error.inj he)
  | .error _, .ok _ => .isFalse fun he => Except.noConfusion he
  | .ok _, .error _ => .isFalse fun he => Except.noConfusion he
  | .ok a, .ok b =>
    if h : a = b then .isTrue (by rw [h])
    else .isFalse fun he => h (Except.ok.inj he)

instance {α β : Type} [DecidableEq α] [DecidableEq β] : DecidableEq (Except α β) :=
  exceptDecEq

/-! ### Spec parser -/

/-- `getColumnType` from `mock-adapter.go`: resolve a (possibly
`*`-prefixed) type string to the Go scan type, the dialect's native type
name, and the nullable flag. `Except.error` is a report through the
failure channel (the default handler terminates the run there). -/
def getColumnType (typeStr0 : String) (dbType : Int) :
    Except PanicMsg (GoType × String × Bool) := do
  let typeStr := goTrim typeStr0
  let isPointer := goStartsWithStar typeStr
  let baseType := if isPointer then (⟨typeStr.data.drop 1⟩ : String) else typeStr
  match baseTypes baseType with
  | Option.none => throw (.unsupportedType typeStr)
  | some base =>
    let goColType := if isPointer then GoType.ptr base else base
    let nullable := isPointer
    let dbColType ←
      if dbType = DbTypeSnowflake then pure (dbTypesSnowflake baseType)
      else if dbType = DbTypePostgresSQL then pure (dbTypesPostgres baseType)
      else if dbType = DbTypeMsSQL then pure (dbTypesMsSql baseType)
      else throw PanicMsg.invalidDatabaseType
    if dbColType = "" then
      throw (.tableOutOfSync baseType)
    else
      return (goColType, dbColType, nullable)

/-- The mutable locals of `parseColumnSpec`'s key=value loop. -/
structure parseAcc where
  colName : String := ""
  typeStr : String := ""
  dbTypeStr : String := ""
  length : Option Int := none
  precision : Option Int := none
  scale : Option Int := none
deriving DecidableEq, Repr

/-- The key=value loop of `parseColumnSpec` (lines 196-241): trim each
pair, skip empty pairs, split at the first `=`, and dispatch on the key. -/
def parsePairs : List String → parseAcc → Except PanicMsg parseAcc
  | [], acc => .ok acc
  | part0 :: rest, acc =>
    let part := goTrim part0
    if part = "" then parsePairs rest acc
    else
      match splitN2Eq part with
      | [key0, value0] =>
        let key := goTrim key0
        let value := goTrim value0
        if key = "name" then parsePairs rest { acc with colName := value }
        else if key = "type" then parsePairs rest { acc with typeStr := value }
        else if key = "length" then
          match parseIntDec value with
          | Option.none => .error (.invalidLength value)
          | some l => parsePairs rest { acc with length := some l }
        else if key = "precision" then
          match parseIntDec value with
          | Option.none => .error (.invalidPrecision value)
          | some p => parsePairs rest { acc with precision := some p }
        else if key = "scale" then
          match parseIntDec value with
          | Option.none => .error (.invalidScale value)
          | some s => parsePairs rest { acc with scale := some s }
        else if key = "dbType" then parsePairs rest { acc with dbTypeStr := value }
        else .error (.unknownKeyword key)
      | _ => .error (.invalidPair part)

/-- The final step of `parseColumnSpec` (lines 291-310): reject a
case-insensitive duplicate name, then append the column, its name, its
index, and pad existing rows that are now too short with `nil` slots. -/
def addColumn (row : mockRowSet) (colName : String) (colType : mockColumnType) :
    Except PanicMsg mockRowSet :=
  let colNameLwr := goToLower colName
  if (row.orderLwr.lookup colNameLwr).isSome then
    .error (.duplicateColumn colName)
  else
    let index := row.columns.length
    .ok { row with
      order := row.order ++ [colName]
      orderLwr := row.orderLwr ++ [(colNameLwr, index)]
      columns := row.columns ++ [colName]
      columnTypes := row.columnTypes ++ [colType]
      values := row.values.map fun r =>
        if r.length < index + 1 then r ++ List.replicate (index + 1 - r.length) Val.none
        else r }

/-- `parseColumnSpec` from `mock-adapter.go`: parse one specification
string and add the resulting column to the row set. -/
def parseColumnSpec (colSpec : String) (dbType : Int) (row : mockRowSet) :
    Except PanicMsg mockRowSet := do
  let parts := goSplitSemi colSpec
  if parts.length = 0 then
    throw (.emptyColumnSpec colSpec)
  else
    match parsePairs parts {} with
    | .error e => throw e
    | .ok acc =>
      if acc.colName = "" then
        throw (.missingName colSpec)
      else if acc.typeStr = "" then
        throw (.missingType colSpec)
      else
        match getColumnType acc.typeStr dbType with
        | .error e => throw e
        | .ok (goColType, defaultDbType, nullable) =>
          let dbColType := if acc.dbTypeStr ≠ "" then acc.dbTypeStr else defaultDbType
          match dbTypeDefaults dbType with
          | Option.none => throw PanicMsg.databaseTypeNotValid
          | some defaultTable =>
            let defaults := (defaultTable dbColType).getD ⟨0, 0, 0⟩
            let length := acc.length.getD defaults.length
            let precision := acc.precision.getD defaults.precision
            let scale := acc.scale.getD defaults.scale
            addColumn row acc.colName
              ⟨acc.colName, goColType, nullable, length, precision, scale, dbColType⟩

/-- `NewMockRowSet` from `mock-adapter.go`: fold the specification strings
into an initially empty row set; the first failure-channel report aborts
(the default handler terminates the run). -/
def NewMockRowSet (cols : List String) (dbType : Int) : Except PanicMsg mockRowSet :=
  cols.foldlM (fun row colSpec => parseColumnSpec colSpec dbType row) {}

/-! ### Row construction and the cursor engine -/

/-- `mockRowSet.AddRow`: make a row of exactly `len(columns)` slots
(`nil`-filled), copy `min (values.length) (columns.length)` values into
it, and append it. -/
def mockRowSet.AddRow (m : mockRowSet) (values : List Val) : mockRowSet :=
  let vals := values.take m.columns.length ++
    List.replicate (m.columns.length - values.length) Val.none
  { m with values := m.values ++ [vals] }

/-- `mockRowSet.Next`: advance when `pos < len(values)` and return true;
otherwise set `pos := len(values) + 1` and return false. -/
def mockRowSet.Next (m : mockRowSet) : Bool × mockRowSet :=
  if m.pos < m.values.length then (true, { m with pos := m.pos + 1 })
  else (false, { m with pos := m.values.length + 1 })

/-- The boolean results of `k` consecutive `Next` calls. -/
def nextResults : mockRowSet → Nat → List Bool
  | _, 0 => []
  | m, k + 1 =>
    let r := m.Next
    r.1 :: nextResults r.2 k

/-- The ordinary error values `Scan` can return, one constructor per
`errors.New`/`fmt.Errorf` in the source. -/
inductive ScanErr where
  | scanWithoutNext
  | noMoreRows
  | lengthMismatch (destLen rowLen : Nat)
deriving DecidableEq, Repr

/-- The outcome of a `Scan` call: a returned error value, a Go runtime
panic during the reflect write-through (`crash` — not an error value and
not the failure channel), or success with the updated destination slots
and heap. -/
inductive ScanOutcome where
  | err (e : ScanErr)
  | crash
  | ok (dest : List Val) (heap : List Val)
deriving DecidableEq, Repr

/-- The write loop of `Scan` (lines 170-177): for each row value, consult
the column's nullable flag; a nullable column's raw value is assigned
directly into the destination slot, a non-nullable column's value is
written through the destination pointer into the heap cell it references.
`Option.none` models the Go runtime panics (missing column type,
missing destination, non-pointer or dangling destination). -/
def scanWrite : List Bool → List Val → List Val → List Val →
    Option (List Val × List Val)
  | _, [], dest, heap => some (dest, heap)
  | [], _ :: _, _, _ => none
  | _ :: _, _ :: _, [], _ => none
  | true :: ns, v :: vs, d :: ds, heap =>
    (scanWrite ns vs ds heap).map fun p => (v :: p.1, p.2)
  | false :: ns, v :: vs, Val.ptr a :: ds, heap =>
    if a < heap.length then
      (scanWrite ns vs ds (heap.set a v)).map fun p => (Val.ptr a :: p.1, p.2)
    else none
  | false :: _, _ :: _, _ :: _, _ => none

/-- The heap cells the write loop writes through: the referenced addresses
of the destinations of non-nullable columns (within the row's width). -/
def writeAddrs : List Bool → List Val → List Val → List Nat
  | true :: ns, _ :: vs, _ :: ds => writeAddrs ns vs ds
  | false :: ns, _ :: vs, Val.ptr a :: ds => a :: writeAddrs ns vs ds
  | false :: ns, _ :: vs, _ :: ds => writeAddrs ns vs ds
  | _, _, _ => []

/-- The row `m.values[m.pos-1]` that `Scan` reads when positioned. -/
def mockRowSet.currentRow (m : mockRowSet) : List Val :=
  m.values.getD (m.pos - 1) []

/-- `mockRowSet.Scan` from `mock-adapter.go`: the three guard checks in
source order, then the write loop. -/
def mockRowSet.Scan (m : mockRowSet) (dest : List Val) (heap : List Val) :
    ScanOutcome :=
  if m.pos = 0 then .err .scanWithoutNext
  else if m.pos > m.values.length then .err .noMoreRows
  else if dest.length ≠ m.currentRow.length then
    .err (.lengthMismatch dest.length m.currentRow.length)
  else
    match scanWrite (m.columnTypes.map mockColumnType.nullable) m.currentRow dest heap with
    | Option.none => .crash
    | some (d', h') => .ok d' h'

/-! ## Theorems settling the claims -/

/-- C6: constructing a mock row set from `["name=ID;type=int64",
"name=NAME;type=string"]` with the Snowflake dialect produces exactly two
descriptors: `ID` with native type name `"BIGINT"` and length 0, and
`NAME` with native type name `"VARCHAR"` and length 16777216. -/
theorem scenario_a_snowflake :
    (NewMockRowSet ["name=ID;type=int64", "name=NAME;type=string"] DbTypeSnowflake).map
      (fun r => r.columnTypes.map fun c => (c.Name, c.DatabaseTypeName, c.length)) =
      .ok [("ID", "BIGINT", 0), ("NAME", "VARCHAR", 16777216)] := by
  decide

/-- C7 counterexample: parsing `["name=TS;type=*timestamp"]` with the
Postgres dialect does not succeed — there is no semantic type named
`timestamp` in the base-type table, so the parser reports an
unsupported-type failure through the failure channel. -/
theorem star_timestamp_unsupported :
    NewMockRowSet ["name=TS;type=*timestamp"] DbTypePostgresSQL =
      .error (.unsupportedType "*timestamp") := by
  decide

/-- C7 amended: the semantic type for a timestamp is spelled `time.Time`
(the Go type name). Parsing `["name=TS;type=*time.Time"]` with the
Postgres dialect succeeds and produces a column whose `Nullable()`
returns `(true, true)` and whose native type name is
`"TIMESTAMP WITH TIME ZONE"`. -/
theorem scenario_b_postgres_time :
    (NewMockRowSet ["name=TS;type=*time.Time"] DbTypePostgresSQL).map
      (fun r => r.columnTypes.map fun c => (c.Nullable, c.DatabaseTypeName)) =
      .ok [((true, true), "TIMESTAMP WITH TIME ZONE")] := by
  decide

/-- C4: the claimed registry consistency fails on the code. Every
semantic type does resolve to a non-empty native type name in every
dialect (last conjunct), but the native name is not always a key of that
dialect's defaults table: Postgres maps `float64` to
`"DOUBLE PRECISION"`, while the Postgres defaults table's key is spelled
`"DOUBLE precision"`, so the defaults lookup misses; `"NUMERIC(20)"`
(Postgres `uint64`) and `"DECIMAL(20)"` (MS SQL `uint64`) have no
defaults entries either. No failure is raised: construction proceeds
silently with zero defaults, as the third conjunct shows for
`float64`/Postgres. -/
theorem postgres_defaults_out_of_sync :
    dbTypesPostgres "float64" = "DOUBLE PRECISION"
    ∧ dbTypeDefaultsPostgres "DOUBLE PRECISION" = none
    ∧ (NewMockRowSet ["name=X;type=float64"] DbTypePostgresSQL).map
        (fun r => r.columnTypes.map fun c => (c.DatabaseTypeName, c.DecimalSize)) =
        .ok [("DOUBLE PRECISION", (0, 0, false))]
    ∧ dbTypeDefaultsPostgres "NUMERIC(20)" = none
    ∧ dbTypeDefaultsMsSql "DECIMAL(20)" = none
    ∧ (baseTypeNames.all fun t =>
        (baseTypes t).isSome && dbTypesSnowflake t != "" &&
          dbTypesPostgres t != "" && dbTypesMsSql t != "") = true := by
  decide

/-- C8 counterexample: with one descriptor, appending the two-value
sequence `[1, 2]` by position stores the one-slot row `[1]` — the second
value is silently dropped, so the sequence is not copied directly into
the new row. -/
theorem addRow_truncates :
    (NewMockRowSet ["name=ID;type=int"] DbTypeSnowflake).map
        (fun r => (r.AddRow [Val.int 1, Val.int 2]).values) = .ok [[Val.int 1]]
    ∧ ([[Val.int 1]] : List (List Val)) ≠ [[Val.int 1, Val.int 2]] := by
  decide

/-- C5 counterexample: the pair `name=A=B` contains two `=` characters,
yet construction succeeds (the pair is split at the first `=` and `A=B`
becomes the column name) — the parser does not reject pairs that fail to
contain exactly one `=`, only pairs that contain none. -/
theorem double_equals_pair_accepted :
    (("name=A=B").data.filter (fun c => c = Char.ofNat 61)).length = 2
    ∧ (NewMockRowSet ["name=A=B;type=int"] DbTypeSnowflake).map
        (fun r => r.columns) = .ok ["A=B"] := by
  decide

/-- C10: `Length()` reports `ok = true` exactly when the stored length is
nonzero, and `DecimalSize()` reports `ok = true` exactly when the stored
precision or scale is nonzero; consequently an explicitly specified
`length=0` column is reported as having no length info, with exactly the
same `Length()` output as an `int64` column to which length does not
apply. -/
theorem length_decimal_ok_iff (m : mockColumnType) :
    (m.Length.2 = true ↔ m.length ≠ 0)
    ∧ (m.DecimalSize.2.2 = true ↔ (m.precision ≠ 0 ∨ m.scale ≠ 0))
    ∧ (NewMockRowSet ["name=A;type=string;length=0", "name=B;type=int64"]
        DbTypeSnowflake).map (fun r => r.columnTypes.map fun c => c.Length) =
        .ok [(0, false), (0, false)] := by
  refine ⟨?_, ?_, by decide⟩
  · simp [mockColumnType.Length, bne_iff_ne]
  · simp [mockColumnType.DecimalSize, bne_iff_ne]

/-- C10 witness: instantiating at a descriptor with length 3 and all-zero
precision and scale. -/
theorem length_decimal_ok_iff_witness :
    ((⟨"C", GoType.int, false, 3, 0, 0, "INTEGER"⟩ : mockColumnType).Length.2 = true)
    ∧ ¬((⟨"C", GoType.int, false, 3, 0, 0, "INTEGER"⟩ : mockColumnType).DecimalSize.2.2 = true) := by
  have h := length_decimal_ok_iff ⟨"C", GoType.int, false, 3, 0, 0, "INTEGER"⟩
  exact ⟨h.1.mpr (by decide), fun hc => by simpa using h.2.1.mp hc⟩

/-- C8 amended: the by-position entry point appends exactly one new row
of exactly descriptor-count width, copying the first
`min (values.length) (columns.length)` given values into it positionally
and filling any remaining slots with the absent placeholder; extra given
values beyond the descriptor count are dropped; no length validation
occurs (the operation is total and always appends), and no existing row,
column, or descriptor is mutated. -/
theorem addRow_appends_unvalidated (m : mockRowSet) (values : List Val) :
    ∃ newRow : List Val,
      (m.AddRow values).values = m.values ++ [newRow]
      ∧ newRow.length = m.columns.length
      ∧ (∀ i, i < values.length → i < m.columns.length →
          newRow[i]? = values[i]?)
      ∧ (∀ i, values.length ≤ i → i < m.columns.length →
          newRow[i]? = some Val.none)
      ∧ (m.AddRow values).columns = m.columns
      ∧ (m.AddRow values).columnTypes = m.columnTypes
      ∧ (m.AddRow values).orderLwr = m.orderLwr
      ∧ (m.AddRow values).pos = m.pos := by
  refine ⟨values.take m.columns.length ++
    List.replicate (m.columns.length - values.length) Val.none,
    rfl, ?_, ?_, ?_, rfl, rfl, rfl, rfl⟩
  · simp only [List.length_append, List.length_take, List.length_replicate]
    omega
  · intro i hiv hic
    rw [List.getElem?_append_left (by simp only [List.length_take]; omega),
      List.getElem?_take, if_pos hic]
  · intro i hiv hic
    rw [List.getElem?_append_right (by simp only [List.length_take]; omega),
      List.getElem?_replicate, if_pos (by simp only [List.length_take]; omega)]

/-- C8 witness: two columns, a single given value: the stored row is the
value followed by one absent placeholder; nothing else changes. -/
theorem addRow_appends_unvalidated_witness :
    ∃ newRow : List Val,
      (({ columns := ["A", "B"] } : mockRowSet).AddRow [Val.int 5]).values =
          [] ++ [newRow]
      ∧ newRow.length = (["A", "B"] : List String).length
      ∧ (∀ i, i < ([Val.int 5] : List Val).length → i < (["A", "B"] : List String).length →
          newRow[i]? = ([Val.int 5] : List Val)[i]?)
      ∧ (∀ i, ([Val.int 5] : List Val).length ≤ i → i < (["A", "B"] : List String).length →
          newRow[i]? = some Val.none)
      ∧ (({ columns := ["A", "B"] } : mockRowSet).AddRow [Val.int 5]).columns = ["A", "B"]
      ∧ (({ columns := ["A", "B"] } : mockRowSet).AddRow [Val.int 5]).columnTypes = []
      ∧ (({ columns := ["A", "B"] } : mockRowSet).AddRow [Val.int 5]).orderLwr = []
      ∧ (({ columns := ["A", "B"] } : mockRowSet).AddRow [Val.int 5]).pos = 0 :=
  addRow_appends_unvalidated { columns := ["A", "B"] } [Val.int 5]

/-- Once the cursor position has passed the row count, every `Next` call
returns false (and keeps the position past the end). -/
theorem nextResults_exhausted (k : Nat) :
    ∀ m : mockRowSet, m.values.length < m.pos →
      nextResults m k = List.replicate k false := by
  induction k with
  | zero => intro m _; rfl
  | succ k ih =>
    intro m h
    have hlt : ¬ m.pos < m.values.length := by omega
    simp only [nextResults, mockRowSet.Next, if_neg hlt, List.replicate_succ,
      List.cons.injEq, true_and]
    exact ih _ (by simp)

/-- With the position at most the row count, `k` `Next` calls return true
while rows remain and false afterwards. -/
theorem nextResults_run (k : Nat) :
    ∀ m : mockRowSet, m.pos ≤ m.values.length →
      nextResults m k =
        List.replicate (min k (m.values.length - m.pos)) true ++
          List.replicate (k - (m.values.length - m.pos)) false := by
  induction k with
  | zero => intro m _; simp [nextResults]
  | succ k ih =>
    intro m h
    by_cases hlt : m.pos < m.values.length
    · have h1 : min (k + 1) (m.values.length - m.pos) =
          min k (m.values.length - (m.pos + 1)) + 1 := by omega
      have h2 : (k + 1) - (m.values.length - m.pos) =
          k - (m.values.length - (m.pos + 1)) := by omega
      simp only [nextResults, mockRowSet.Next, if_pos hlt, h1, h2,
        List.replicate_succ, List.cons_append, List.cons.injEq, true_and]
      exact ih { m with pos := m.pos + 1 } (by simp; omega)
    · have heq : m.values.length - m.pos = 0 := by omega
      simp only [nextResults, mockRowSet.Next, if_neg hlt, heq,
        Nat.min_zero, Nat.sub_zero, List.replicate_zero, List.nil_append,
        List.replicate_succ, List.cons.injEq, true_and]
      exact nextResults_exhausted k _ (by simp)

/-- C1: from a fresh cursor (`pos = 0`) over `N` appended rows, the first
`N` `Next` calls return true and every later call returns false; and from
any state whatsoever, once a `Next` call has returned false, every
further `Next` call without an intervening append returns false as well
(a false is never followed by a true unless rows were appended in
between). -/
theorem next_state_machine (m : mockRowSet) (h : m.pos = 0) (k : Nat) :
    nextResults m k =
      List.replicate (min k m.values.length) true ++
        List.replicate (k - m.values.length) false
    ∧ ∀ (m' : mockRowSet) (j : Nat), (m'.Next).1 = false →
        nextResults (m'.Next).2 j = List.replicate j false := by
  constructor
  · have := nextResults_run k m (by omega)
    simpa [h] using this
  · intro m' j hfalse
    have hlt : ¬ m'.pos < m'.values.length := by
      intro hc
      simp [mockRowSet.Next, if_pos hc] at hfalse
    refine nextResults_exhausted j _ ?_
    simp [mockRowSet.Next, if_neg hlt]

/-- C1 witness: two rows appended before iteration give
`[true, true, false]` over three calls, and a `Next` returning false on
an exhausted one-row set is followed only by false results. -/
theorem next_state_machine_witness :
    nextResults { values := [[Val.int 1], [Val.int 2]] } 3 =
      List.replicate (min 3 2) true ++ List.replicate (3 - 2) false
    ∧ nextResults ((({ values := [[Val.int 1]], pos := 1 } : mockRowSet).Next).2) 2 =
        List.replicate 2 false :=
  ⟨(next_state_machine { values := [[Val.int 1], [Val.int 2]] } rfl 3).1,
   (next_state_machine {} rfl 0).2 { values := [[Val.int 1]], pos := 1 } 2 (by decide)⟩

/-- C2: `Scan` returns an ordinary error value in exactly three cases —
the distinct scan-before-advancing error exactly when no `Next` has been
called, the distinct no-more-rows error exactly when the cursor has
passed the end, and the length-mismatch error (carrying both lengths)
exactly when positioned with a destination count different from the
stored row's width — and in every other positioned state with matching
counts and write-compatible destinations it succeeds. Its outcome type
carries no failure-channel message: scan errors are returned values. -/
theorem scan_error_classification (m : mockRowSet) (dest heap : List Val) :
    (m.Scan dest heap = .err .scanWithoutNext ↔ m.pos = 0)
    ∧ (m.Scan dest heap = .err .noMoreRows ↔
        (m.pos ≠ 0 ∧ m.values.length < m.pos))
    ∧ (∀ a b, m.Scan dest heap = .err (.lengthMismatch a b) ↔
        (m.pos ≠ 0 ∧ m.pos ≤ m.values.length
          ∧ dest.length ≠ m.currentRow.length
          ∧ a = dest.length ∧ b = m.currentRow.length))
    ∧ (∀ d' h', m.pos ≠ 0 → m.pos ≤ m.values.length →
        dest.length = m.currentRow.length →
        scanWrite (m.columnTypes.map mockColumnType.nullable) m.currentRow dest heap =
          some (d', h') →
        m.Scan dest heap = .ok d' h') := by
  unfold mockRowSet.Scan
  by_cases h0 : m.pos = 0
  · rw [if_pos h0]
    exact ⟨by simp [h0], by simp [h0], fun a b => by simp [h0],
      fun d' h' hp _ _ _ => absurd h0 hp⟩
  · rw [if_neg h0]
    by_cases h1 : m.values.length < m.pos
    · rw [if_pos h1]
      refine ⟨iff_of_false (by simp) h0, by simp [h0, h1],
        fun a b => iff_of_false (by simp) ?_, fun d' h' _ hle _ _ => by omega⟩
      rintro ⟨-, hle, -⟩
      omega
    · rw [if_neg h1]
      by_cases h2 : dest.length = m.currentRow.length
      · rw [if_neg (fun hc => hc h2)]
        rcases hw : scanWrite (m.columnTypes.map mockColumnType.nullable)
            m.currentRow dest heap with - | ⟨d0, g0⟩
        · simp only [hw]
          refine ⟨iff_of_false (by simp) h0,
            iff_of_false (by simp) (fun hc => h1 hc.2),
            fun a b => iff_of_false (by simp) (fun hc => hc.2.2.1 h2),
            fun d' h' _ _ _ hw' => ?_⟩
          exact Option.noConfusion hw'
        · simp only [hw]
          refine ⟨iff_of_false (by simp) h0,
            iff_of_false (by simp) (fun hc => h1 hc.2),
            fun a b => iff_of_false (by simp) (fun hc => hc.2.2.1 h2),
            fun d' h' _ _ _ hw' => ?_⟩
          injection hw' with hp
          injection hp with h3 h4
          rw [h3, h4]
      · rw [if_pos h2]
        refine ⟨iff_of_false (by simp) h0,
          iff_of_false (by simp) (fun hc => h1 hc.2),
          fun a b => ?_, fun d' h' _ _ hlen _ => absurd hlen h2⟩
        constructor
        · intro hEq
          injection hEq with hErr
          injection hErr with ha hb
          exact ⟨h0, by omega, h2, ha.symm, hb.symm⟩
        · rintro ⟨-, -, -, ha, hb⟩
          rw [ha, hb]

/-- C2 witness: a one-row set positioned on its row with one pointer
destination succeeds, writing through the pointer. -/
theorem scan_error_classification_witness :
    ({ columns := ["ID"],
       columnTypes := [⟨"ID", GoType.int, false, 0, 0, 0, "INTEGER"⟩],
       values := [[Val.int 42]], pos := 1 } : mockRowSet).Scan
        [Val.ptr 0] [Val.none] = .ok [Val.ptr 0] [Val.int 42] :=
  (scan_error_classification
      { columns := ["ID"],
        columnTypes := [⟨"ID", GoType.int, false, 0, 0, 0, "INTEGER"⟩],
        values := [[Val.int 42]], pos := 1 }
      [Val.ptr 0] [Val.none]).2.2.2 [Val.ptr 0] [Val.int 42]
    (by decide) (by decide) (by decide) (by decide)

/-- Heap cells not referenced by any non-nullable destination are left
unchanged by the write loop. -/
theorem scanWrite_frame (row : List Val) :
    ∀ (nulls : List Bool) (dest heap d' h' : List Val),
      scanWrite nulls row dest heap = some (d', h') →
      ∀ b, b ∉ writeAddrs nulls row dest → h'[b]? = heap[b]? := by
  induction row with
  | nil =>
    intro nulls dest heap d' h' hw b _
    match nulls with
    | [] | true :: _ | false :: _ =>
      injection hw with hp
      injection hp with _ hh
      rw [hh]
  | cons v vs ih =>
    intro nulls dest heap d' h' hw b hb
    match nulls, dest with
    | [], [] => exact Option.noConfusion hw
    | [], d :: ds => exact Option.noConfusion hw
    | true :: ns, [] => exact Option.noConfusion hw
    | false :: ns, [] => exact Option.noConfusion hw
    | true :: ns, d :: ds =>
      rcases hw2 : scanWrite ns vs ds heap with - | ⟨ds0, g0⟩ <;>
        simp only [scanWrite, hw2, Option.map_none', Option.map_some'] at hw
      · exact Option.noConfusion hw
      · injection hw with hp
        injection hp with _ hh
        rw [← hh]
        simp only [writeAddrs] at hb
        exact ih ns ds heap ds0 g0 hw2 b hb
    | false :: ns, Val.ptr a :: ds =>
      by_cases ha : a < heap.length
      · rcases hw2 : scanWrite ns vs ds (heap.set a v) with - | ⟨ds0, g0⟩ <;>
          simp only [scanWrite, if_pos ha, hw2, Option.map_none',
            Option.map_some'] at hw
        · exact Option.noConfusion hw
        · injection hw with hp
          injection hp with _ hh
          rw [← hh]
          simp only [writeAddrs, List.mem_cons, not_or] at hb
          rw [ih ns ds (heap.set a v) ds0 g0 hw2 b hb.2]
          exact List.getElem?_set_ne fun hc => hb.1 hc.symm
      · simp only [scanWrite, if_neg ha] at hw
        exact Option.noConfusion hw
    | false :: ns, Val.none :: ds => exact Option.noConfusion hw
    | false :: ns, Val.bool b0 :: ds => exact Option.noConfusion hw
    | false :: ns, Val.int n0 :: ds => exact Option.noConfusion hw
    | false :: ns, Val.str s0 :: ds => exact Option.noConfusion hw
    | false :: ns, Val.time t0 :: ds => exact Option.noConfusion hw
    | false :: ns, Val.uuid u0 :: ds => exact Option.noConfusion hw

/-- The write loop writes each of the row's columns according to the
column's nullable flag: a nullable column's raw value lands in the
destination slot, a non-nullable column's value lands in the heap cell
the (pointer) destination references, the slot itself unchanged. -/
theorem scanWrite_sound (row : List Val) :
    ∀ (nulls : List Bool) (dest heap d' h' : List Val),
      scanWrite nulls row dest heap = some (d', h') →
      (writeAddrs nulls row dest).Nodup →
      ∀ i, i < row.length →
        (nulls.getD i false = true → d'[i]? = some (row.getD i Val.none))
        ∧ (nulls.getD i false = false → d'[i]? = dest[i]? ∧
            ∃ a, dest[i]? = some (Val.ptr a) ∧
              h'[a]? = some (row.getD i Val.none)) := by
  induction row with
  | nil =>
    intro nulls dest heap d' h' _ _ i hi
    exact absurd hi (by simp)
  | cons v vs ih =>
    intro nulls dest heap d' h' hw hnd i hi
    match nulls, dest with
    | [], [] => exact Option.noConfusion hw
    | [], d :: ds => exact Option.noConfusion hw
    | true :: ns, [] => exact Option.noConfusion hw
    | false :: ns, [] => exact Option.noConfusion hw
    | true :: ns, d :: ds =>
      rcases hw2 : scanWrite ns vs ds heap with - | ⟨ds0, g0⟩ <;>
        simp only [scanWrite, hw2, Option.map_none', Option.map_some'] at hw
      · exact Option.noConfusion hw
      · injection hw with hp
        injection hp with hd hh
        rw [← hd, ← hh]
        simp only [writeAddrs] at hnd
        match i, hi with
        | 0, _ => exact ⟨fun _ => by simp [List.getD], fun hc => by simp at hc⟩
        | i + 1, hi =>
          have := ih ns ds heap ds0 g0 hw2 hnd i
            (by simpa using Nat.lt_of_succ_lt_succ hi)
          simpa using this
    | false :: ns, Val.ptr a :: ds =>
      by_cases ha : a < heap.length
      · rcases hw2 : scanWrite ns vs ds (heap.set a v) with - | ⟨ds0, g0⟩ <;>
          simp only [scanWrite, if_pos ha, hw2, Option.map_none',
            Option.map_some'] at hw
        · exact Option.noConfusion hw
        · injection hw with hp
          injection hp with hd hh
          rw [← hd, ← hh]
          simp only [writeAddrs, List.nodup_cons] at hnd
          match i, hi with
          | 0, _ =>
            refine ⟨fun hc => by simp at hc,
              fun _ => ⟨by simp, a, by simp, ?_⟩⟩
            rw [scanWrite_frame vs ns ds (heap.set a v) ds0 g0 hw2 a hnd.1]
            simp [List.getD, List.getElem?_set_eq_of_lt v ha]
          | i + 1, hi =>
            have := ih ns ds (heap.set a v) ds0 g0 hw2 hnd.2 i
              (by simpa using Nat.lt_of_succ_lt_succ hi)
            simpa using this
      · simp only [scanWrite, if_neg ha] at hw
        exact Option.noConfusion hw
    | false :: ns, Val.none :: ds => exact Option.noConfusion hw
    | false :: ns, Val.bool b0 :: ds => exact Option.noConfusion hw
    | false :: ns, Val.int n0 :: ds => exact Option.noConfusion hw
    | false :: ns, Val.str s0 :: ds => exact Option.noConfusion hw
    | false :: ns, Val.time t0 :: ds => exact Option.noConfusion hw
    | false :: ns, Val.uuid u0 :: ds => exact Option.noConfusion hw

/-- C3: on every successful `Scan`, each column of the current row is
written according to its descriptor's nullable flag — a nullable column's
raw stored value (including an absent value) is placed into the
destination slot directly, without indirection; a non-nullable column's
stored value is written through the destination's indirection into the
heap cell the destination references, the slot itself untouched.
(The referenced cells are assumed pairwise distinct, as Go's distinct
pointer destinations are.) -/
theorem scan_write_nullable_dispatch (m : mockRowSet) (dest heap d' h' : List Val)
    (hok : m.Scan dest heap = .ok d' h')
    (hnodup : (writeAddrs (m.columnTypes.map mockColumnType.nullable)
      m.currentRow dest).Nodup) :
    ∀ i (ct : mockColumnType), i < m.currentRow.length →
      m.columnTypes[i]? = some ct →
      (ct.Nullable.1 = true → d'[i]? = some (m.currentRow.getD i Val.none))
      ∧ (ct.Nullable.1 = false → d'[i]? = dest[i]? ∧
          ∃ a, dest[i]? = some (Val.ptr a) ∧
            h'[a]? = some (m.currentRow.getD i Val.none)) := by
  intro i ct hi hct
  have hw : scanWrite (m.columnTypes.map mockColumnType.nullable)
      m.currentRow dest heap = some (d', h') := by
    unfold mockRowSet.Scan at hok
    by_cases h0 : m.pos = 0
    · rw [if_pos h0] at hok; exact ScanOutcome.noConfusion hok
    · rw [if_neg h0] at hok
      by_cases h1 : m.values.length < m.pos
      · rw [if_pos h1] at hok; exact ScanOutcome.noConfusion hok
      · rw [if_neg h1] at hok
        by_cases h2 : dest.length ≠ m.currentRow.length
        · rw [if_pos h2] at hok; exact ScanOutcome.noConfusion hok
        · rw [if_neg h2] at hok
          rcases hw0 : scanWrite (m.columnTypes.map mockColumnType.nullable)
              m.currentRow dest heap with - | ⟨d0, g0⟩ <;> rw [hw0] at hok
          · cases hok
          · injection hok with hd hh
            rw [hd, hh]
  have hn : (m.columnTypes.map mockColumnType.nullable).getD i false = ct.nullable := by
    simp [List.getD, List.getElem?_map, hct]
  have := scanWrite_sound m.currentRow
    (m.columnTypes.map mockColumnType.nullable) dest heap d' h' hw hnodup i hi
  rw [hn] at this
  exact this

/-- C3 witness: a two-column row (first nullable, second not): the
nullable column is not involved; the non-nullable second column's value
lands in the heap cell referenced by its pointer destination. -/
theorem scan_write_nullable_dispatch_witness :
    ([Val.int 7, Val.ptr 0] : List Val)[1]? = ([Val.none, Val.ptr 0] : List Val)[1]?
    ∧ ∃ a, ([Val.none, Val.ptr 0] : List Val)[1]? = some (Val.ptr a)
        ∧ ([Val.str "x"] : List Val)[a]? = some (Val.str "x") :=
  (scan_write_nullable_dispatch
      { columns := ["A", "B"],
        columnTypes := [⟨"A", GoType.ptr GoType.int, true, 0, 0, 0, "INTEGER"⟩,
          ⟨"B", GoType.string, false, 0, 0, 0, "VARCHAR"⟩],
        values := [[Val.int 7, Val.str "x"]], pos := 1 }
      [Val.none, Val.ptr 0] [Val.none] [Val.int 7, Val.ptr 0] [Val.str "x"]
      (by decide) (by decide) 1
      ⟨"B", GoType.string, false, 0, 0, 0, "VARCHAR"⟩
      (by decide) (by decide)).2 (by decide)

/-- Splitting never produces an empty piece list (Go `strings.Split`
always returns at least one piece). -/
theorem splitListOn_ne_nil (sep : Char) : ∀ cs, splitListOn sep cs ≠ [] := by
  intro cs
  induction cs with
  | nil => simp [splitListOn]
  | cons c cs ih =>
    simp only [splitListOn]
    by_cases h : c = sep
    · simp [h]
    · rw [if_neg h]
      rcases hr : splitListOn sep cs with - | ⟨x, xs⟩ <;> simp

/-- `goSplitSemi` always returns at least one piece. -/
theorem goSplitSemi_length_ne_zero (s : String) : (goSplitSemi s).length ≠ 0 := by
  simp only [goSplitSemi, List.length_map, ne_eq, List.length_eq_zero]
  exact splitListOn_ne_nil _ s.data

/-- C9: whenever the lowercased column name of an otherwise valid
specification is already present in the row store's case-insensitive
name index, `parseColumnSpec` rejects the specification through the
failure channel with the duplicate-column report — column names are
unique case-insensitively. -/
theorem duplicate_name_case_insensitive (row : mockRowSet) (spec : String)
    (dbType : Int) (acc : parseAcc) (g : GoType) (dn : String) (nb : Bool)
    (tbl : String → Option databaseDefaults)
    (hpairs : parsePairs (goSplitSemi spec) {} = .ok acc)
    (hname : acc.colName ≠ "")
    (htne : acc.typeStr ≠ "")
    (htype : getColumnType acc.typeStr dbType = .ok (g, dn, nb))
    (hdefaults : dbTypeDefaults dbType = some tbl)
    (hdup : (row.orderLwr.lookup (goToLower acc.colName)).isSome) :
    parseColumnSpec spec dbType row = .error (.duplicateColumn acc.colName) := by
  unfold parseColumnSpec
  rw [if_neg (goSplitSemi_length_ne_zero spec)]
  simp only [hpairs]
  rw [if_neg hname, if_neg htne]
  simp only [htype, hdefaults]
  unfold addColumn
  rw [if_pos hdup]

/-- C9 witness: a row store holding column `ID` rejects a second
specification named `id`. -/
theorem duplicate_name_case_insensitive_witness :
    parseColumnSpec "name=id;type=string" DbTypeSnowflake
      { order := ["ID"], orderLwr := [("id", 0)], columns := ["ID"],
        columnTypes := [⟨"ID", GoType.int, false, 0, 0, 0, "INTEGER"⟩] } =
      .error (.duplicateColumn "id") :=
  duplicate_name_case_insensitive
    { order := ["ID"], orderLwr := [("id", 0)], columns := ["ID"],
      columnTypes := [⟨"ID", GoType.int, false, 0, 0, 0, "INTEGER"⟩] }
    "name=id;type=string" DbTypeSnowflake
    ⟨"id", "string", "", Option.none, Option.none, Option.none⟩
    GoType.string "VARCHAR" false dbTypeDefaultsSnowflake
    (by decide) (by decide) (by decide) (by decide) rfl (by decide)

/-- C5 amended: the parser reports through the failure channel any pair
containing no `=` at all (a pair with several `=` is instead split at the
first one, the remainder staying in the value), any key outside the
recognized six, and — once all pairs are consumed — a missing `name` or a
missing `type`. -/
theorem parser_rejections :
    (∀ (part0 : String) (rest : List String) (acc : parseAcc),
      goTrim part0 ≠ "" → breakAtEq (goTrim part0).data = Option.none →
      parsePairs (part0 :: rest) acc = .error (.invalidPair (goTrim part0)))
    ∧ (∀ (part0 : String) (rest : List String) (acc : parseAcc) (k v : String),
        splitN2Eq (goTrim part0) = [k, v] → goTrim part0 ≠ "" →
        goTrim k ∉ (["name", "type", "length", "precision", "scale",
          "dbType"] : List String) →
        parsePairs (part0 :: rest) acc = .error (.unknownKeyword (goTrim k)))
    ∧ (∀ (spec : String) (dbType : Int) (row : mockRowSet) (acc : parseAcc),
        parsePairs (goSplitSemi spec) {} = .ok acc →
        (acc.colName = "" →
          parseColumnSpec spec dbType row = .error (.missingName spec))
        ∧ (acc.colName ≠ "" → acc.typeStr = "" →
            parseColumnSpec spec dbType row = .error (.missingType spec))) := by
  refine ⟨?_, ?_, ?_⟩
  · intro part0 rest acc hne hbe
    simp only [parsePairs, if_neg hne, splitN2Eq, hbe]
  · intro part0 rest acc k v hsplit hne hk
    simp only [List.mem_cons, List.not_mem_nil, or_false, not_or] at hk
    obtain ⟨h1, h2, h3, h4, h5, h6⟩ := hk
    simp only [parsePairs, if_neg hne, hsplit]
    rw [if_neg h1, if_neg h2, if_neg h3, if_neg h4, if_neg h5, if_neg h6]
  · intro spec dbType row acc hpairs
    constructor
    · intro h0
      unfold parseColumnSpec
      rw [if_neg (goSplitSemi_length_ne_zero spec)]
      simp only [hpairs]
      rw [if_pos h0]
      rfl
    · intro hn h0
      unfold parseColumnSpec
      rw [if_neg (goSplitSemi_length_ne_zero spec)]
      simp only [hpairs]
      rw [if_neg hn, if_pos h0]
      rfl

/-- C5 witness: a pair with no `=`, an unrecognized key, a spec without a
name, and a spec without a type are each reported through the failure
channel. -/
theorem parser_rejections_witness :
    parsePairs ["foo"] {} = .error (.invalidPair "foo")
    ∧ parsePairs ["color=red"] {} = .error (.unknownKeyword "color")
    ∧ parseColumnSpec "type=int" DbTypeSnowflake {} =
        .error (.missingName "type=int")
    ∧ parseColumnSpec "name=ID" DbTypeSnowflake {} =
        .error (.missingType "name=ID") :=
  ⟨parser_rejections.1 "foo" [] {} (by decide) (by decide),
   parser_rejections.2.1 "color=red" [] {} "color" "red"
     (by decide) (by decide) (by decide),
   (parser_rejections.2.2 "type=int" DbTypeSnowflake {}
     ⟨"", "int", "", Option.none, Option.none, Option.none⟩ (by decide)).1 (by decide),
   (parser_rejections.2.2 "name=ID" DbTypeSnowflake {}
     ⟨"ID", "", "", Option.none, Option.none, Option.none⟩ (by decide)).2
     (by decide) (by decide)⟩

end SqlRows
